import Mathlib

/-!
Shallow embedding of the cal.com form-builder dispatcher
(packages/features/form-builder/FormBuilder.tsx) and of the tRPC middleware
chain (packages/trpc/server/trpc.ts), together with proofs about the claims
of the specification.

Conventions of the embedding:
- JavaScript runtime values are modelled by the inductive type JSValue;
  numbers are modelled as integers (no claim involves a non-integral number).
- A JS function that throws is modelled as returning Except, where the
  error constructor records which throw site fired.
- An absent optional property is modelled by Option.none.
-/

set_option autoImplicit false

namespace CalCom

/-- A JavaScript runtime value (numbers restricted to integers). -/
inductive JSValue where
  | undefined
  | null
  | bool (b : Bool)
  | num (n : Int)
  | str (s : String)
  | arr (elems : List JSValue)
  | obj (props : List (String × JSValue))
  deriving Repr

namespace JSValue

/-- JS: v === undefined. -/
def isUndefined : JSValue → Bool
  | .undefined => true
  | _ => false

/-- JS: v === null. -/
def isNull : JSValue → Bool
  | .null => true
  | _ => false

/-- JS: typeof v === "string". -/
def isString : JSValue → Bool
  | .str _ => true
  | _ => false

/-- JS: typeof v === "boolean". -/
def isBool : JSValue → Bool
  | .bool _ => true
  | _ => false

/-- JS: v instanceof Array. -/
def isArray : JSValue → Bool
  | .arr _ => true
  | _ => false

/-- JS: typeof v === "object" (true for plain objects, arrays and null). -/
def isObjectTypeof : JSValue → Bool
  | .obj _ => true
  | .arr _ => true
  | .null => true
  | _ => false

/-- JS: every element of an array is a string; false for non-arrays
(models val instanceof Array && val.every v => typeof v === "string"). -/
def isStringArray : JSValue → Bool
  | .arr elems => elems.all isString
  | _ => false

/-- JS: the key-in-object test k in v, for objects. For arrays the keys are
the numeric indices and length, never a plain property name such as
value, so the test is false there; it is only invoked on values whose
typeof is "object". -/
def hasKey (v : JSValue) (k : String) : Bool :=
  match v with
  | .obj props => props.any (fun p => p.1 == k)
  | _ => false

end JSValue

/-! ## Field schema (packages/features/form-builder/FormBuilder.tsx) -/

/-- One entry of a field's options list: \x7blabel, value\x7d. -/
structure FieldOption where
  label : String
  value : String
  deriving Repr, DecidableEq

/-- One provenance record of a field: \x7blabel, type, id, fieldRequired\x7d. -/
structure FieldSource where
  label : String
  type : String
  id : String
  fieldRequired : Option Bool
  deriving Repr, DecidableEq

/-- A form-builder field (RhfFormField). Optional properties are Option;
editable holds one of "system", "system-but-optional", "user",
"user-readonly". The optionsInputs mapping is only ever tested for
presence by the dispatcher, so its entries are kept abstract as pairs of a
key and a JSValue. -/
structure FieldSchema where
  name : String
  type : String
  label : Option String := none
  defaultLabel : Option String := none
  required : Option Bool := none
  hidden : Option Bool := none
  editable : Option String := none
  placeholder : Option String := none
  options : Option (List FieldOption) := none
  optionsInputs : Option (List (String × JSValue)) := none
  sources : Option (List FieldSource) := none
  deriving Repr

/-! ## Component registry

The dispatcher reads Components[field.type].propsType from
packages/features/form-builder/Components.tsx, which is not part of this
excerpt. -/

/-- Modelled from the spec: the component-config registry Components of
packages/features/form-builder/Components.tsx is missing from the excerpt;
per the dispatcher table of the spec, each field kind resolves to a
propsType contract: the text-like kinds to "text", boolean to "boolean",
multiemail to "textList", select and radio to "select", multiselect and
checkbox to "multiselect", and radioInput (the objective-with-input kind)
to "objectiveWithInput". A field type outside the registry resolves to
none (Components[fieldType] is undefined). -/
def componentsPropsType (fieldType : String) : Option String :=
  if fieldType == "name" || fieldType == "email" || fieldType == "phone" ||
      fieldType == "text" || fieldType == "number" || fieldType == "textarea" then
    some "text"
  else if fieldType == "boolean" then
    some "boolean"
  else if fieldType == "multiemail" then
    some "textList"
  else if fieldType == "select" || fieldType == "radio" then
    some "select"
  else if fieldType == "multiselect" || fieldType == "checkbox" then
    some "multiselect"
  else if fieldType == "radioInput" || fieldType == "objectiveWithInput" then
    some "objectiveWithInput"
  else
    none

/-! ## Component dispatcher (ComponentForField) -/

/-- The throw sites of ComponentForField, each recording the data the
thrown Error message interpolates. -/
inductive RenderError where
  /-- Components[field.type] is undefined, so reading .propsType throws. -/
  | unknownFieldType (fieldType : String)
  /-- "Value ... is not valid for type ... for field ...". -/
  | invalidValue (name : String) (propsType : String)
  /-- "Unknown propsType ..." (thrown inside isValueOfPropsType). -/
  | unknownPropsType (propsType : String)
  /-- "Field options is not defined". -/
  | optionsNotDefined
  /-- "Field optionsInputs is not defined". -/
  | optionsInputsNotDefined
  /-- "Field ... does not have a valid propsType" (fallthrough). -/
  | invalidPropsType (name : String)
  deriving Repr, DecidableEq

/-- What a successful ComponentForField call produces: either a mounted
component of the given propsType bound to the value and options, or the
deliberate empty render (the null returned for objectiveWithInput with an
empty options list). -/
inductive Rendered where
  | component (propsType : String) (value : JSValue) (options : List FieldOption)
  | empty
  deriving Repr

/-- The value-shape predicate of ComponentForField. Arguments mirror the
source closure: value is the outer ComponentForField value captured by the
closure, val and propsType are the function parameters. The
objectiveWithInput branch tests the captured value, not val. An
unrecognised propsType throws. -/
def isValueOfPropsType (value val : JSValue) (propsType : String) :
    Except RenderError Bool :=
  if propsType == "text" then
    .ok val.isString
  else if propsType == "boolean" then
    .ok val.isBool
  else if propsType == "textList" then
    .ok val.isStringArray
  else if propsType == "select" then
    .ok val.isString
  else if propsType == "multiselect" then
    .ok val.isStringArray
  else if propsType == "objectiveWithInput" then
    .ok (if value.isObjectTypeof && !value.isNull then
      value.hasKey "value"
    else
      false)
  else
    .error (.unknownPropsType propsType)

/-- The if-chain of ComponentForField over componentConfig.propsType,
entered after the value-shape check: enforces the ancillary-data
requirements of each branch exactly as the source does (the options check
is the JS truthiness test !field.options, which only fires when options is
absent, and the objectiveWithInput branch returns null when options.length
is 0). -/
def dispatchOnPropsType (field : FieldSchema) (value : JSValue)
    (propsType : String) : Except RenderError Rendered :=
  if propsType == "text" then
    .ok (.component "text" value [])
  else if propsType == "boolean" then
    .ok (.component "boolean" value [])
  else if propsType == "textList" then
    .ok (.component "textList" value [])
  else if propsType == "select" then
    match field.options with
    | none => .error .optionsNotDefined
    | some opts => .ok (.component "select" value opts)
  else if propsType == "multiselect" then
    match field.options with
    | none => .error .optionsNotDefined
    | some opts => .ok (.component "multiselect" value opts)
  else if propsType == "objectiveWithInput" then
    match field.options with
    | none => .error .optionsNotDefined
    | some opts =>
      match field.optionsInputs with
      | none => .error .optionsInputsNotDefined
      | some _ =>
        if opts.length != 0 then
          .ok (.component "objectiveWithInput" value opts)
        else
          .ok .empty
  else
    .error (.invalidPropsType field.name)

/-- The component dispatcher ComponentForField: resolves the propsType of
field.type through the registry, checks a supplied (not undefined) value
against the shape predicate, throwing the invalid-value error on a
mismatch, then runs the propsType if-chain. -/
def ComponentForField (field : FieldSchema) (value : JSValue) :
    Except RenderError Rendered :=
  match componentsPropsType field.type with
  | none => .error (.unknownFieldType field.type)
  | some propsType =>
    if !value.isUndefined then
      match isValueOfPropsType value value propsType with
      | .error e => .error e
      | .ok ok =>
        if !ok then
          .error (.invalidValue field.name propsType)
        else
          dispatchOnPropsType field value propsType
    else
      dispatchOnPropsType field value propsType

/-! ## Schema collection editor (FormBuilder) -/

/-- The dialog state held by FormBuilder: fieldIndex is -1 in create mode
and the bound index in edit mode. -/
structure FieldDialogState where
  isOpen : Bool
  fieldIndex : Int
  deriving Repr, DecidableEq

/-- JS: e || d for an optional string (undefined and the empty string are
falsy). -/
def jsStringOr (e : Option String) (d : String) : String :=
  match e with
  | none => d
  | some s => if s == "" then d else s

/-- The handleSubmit of the authoring dialog: in edit mode
(fieldIndex not -1) update(fieldIndex, data) replaces the entry wholesale;
in create mode the draft is stamped with the user source record, editable
is defaulted with field.editable || "user", and the field is appended.
The dialog is closed in both cases. -/
def submitDialog (fields : List FieldSchema) (dialog : FieldDialogState)
    (data : FieldSchema) : List FieldSchema × FieldDialogState :=
  let newFields :=
    if dialog.fieldIndex != -1 then
      fields.set dialog.fieldIndex.toNat data
    else
      let field := { data with
        sources := some [{ label := "User", type := "user", id := "user",
                           fieldRequired := data.required }] }
      let field := { field with editable := some (jsStringOr field.editable "user") }
      fields ++ [field]
  (newFields, { isOpen := false, fieldIndex := -1 })

/-- The Switch handler of an entry: update(index, \x7b...field, hidden: !checked\x7d),
where checked is the switch state delivered by onCheckedChange. -/
def onHiddenSwitchChange (fields : List FieldSchema) (index : Nat)
    (checked : Bool) : List FieldSchema :=
  match fields[index]? with
  | none => fields
  | some f => fields.set index { f with hidden := some (!checked) }

/-- A user toggle of the hidden switch: the switch renders
checked = !field.hidden, so toggling delivers the new state
checked = field.hidden (JS truthiness of the optional flag) and the update
sets hidden to the negation of its current truthy state. -/
def toggleHidden (fields : List FieldSchema) (index : Nat) : List FieldSchema :=
  match fields[index]? with
  | none => fields
  | some f => onHiddenSwitchChange fields index (f.hidden.getD false)

/-- useFieldArray swap, as used by the up and down arrows: exchanges the
entries at the two indices when both are in range; an out-of-range index
is a documented precondition violation (modelled as the identity). -/
def swapFields (fields : List FieldSchema) (i j : Nat) : List FieldSchema :=
  match fields[i]?, fields[j]? with
  | some a, some b => (fields.set i b).set j a
  | _, _ => fields

/-- The per-entry action area (switch, Edit, delete) is rendered only when
editable is not "user-readonly". -/
def fieldActionsShown (field : FieldSchema) : Bool :=
  field.editable != some "user-readonly"

/-- The inline hidden switch of an entry is rendered only inside the
action area and only when editable is not "system". -/
def hiddenToggleShown (field : FieldSchema) : Bool :=
  fieldActionsShown field && field.editable != some "system"

/-- The delete button of an entry is rendered only inside the action area
and only when editable is neither "system" nor "system-but-optional". -/
def removeButtonShown (field : FieldSchema) : Bool :=
  fieldActionsShown field && field.editable != some "system" &&
    field.editable != some "system-but-optional"

/-- The Input Type select of the dialog is disabled when the draft
editable is "system" or "system-but-optional". -/
def typeSelectDisabled (editable : Option String) : Bool :=
  editable == some "system" || editable == some "system-but-optional"

/-- The Name input of the dialog is disabled when the draft editable is
"system" or "system-but-optional". -/
def nameInputDisabled (editable : Option String) : Bool :=
  editable == some "system" || editable == some "system-but-optional"

/-! ## tRPC middleware chain (packages/trpc/server/trpc.ts) -/

/-- A resolved session (contents irrelevant to the middleware logic). -/
structure Session where
  id : Nat
  deriving Repr, DecidableEq

/-- A resolved user: the middleware reads id and role. -/
structure User where
  id : Nat
  role : String
  deriving Repr, DecidableEq

/-- The request context produced by createContext: user and session may
both be absent. -/
structure Ctx where
  user : Option User
  session : Option Session
  deriving Repr, DecidableEq

/-- The TRPCError codes thrown by this middleware chain. -/
inductive TRPCErrorCode where
  | UNAUTHORIZED
  | BAD_REQUEST
  | TOO_MANY_REQUESTS
  deriving Repr, DecidableEq

/-- isAuthedMiddleware: throws UNAUTHORIZED when !ctx.user || !ctx.session,
otherwise passes the narrowed non-null user and session to next. -/
def isAuthedMiddleware (ctx : Ctx) : Except TRPCErrorCode (User × Session) :=
  match ctx.user, ctx.session with
  | some u, some s => .ok (u, s)
  | _, _ => .error .UNAUTHORIZED

/-- isAdminMiddleware: isAuthedMiddleware piped into the role check, which
throws UNAUTHORIZED when ctx.user.role is not "ADMIN". -/
def isAdminMiddleware (ctx : Ctx) : Except TRPCErrorCode (User × Session) := do
  let (u, s) ← isAuthedMiddleware ctx
  if u.role != "ADMIN" then
    .error .UNAUTHORIZED
  else
    .ok (u, s)

/-- authedProcedure: the perf middleware (marks and a measurement only,
never rejects), then isAuthedMiddleware, then the handler body on the
narrowed context. The handler is a parameter, so a rejection result that
holds for every handler shows the body never ran. -/
def authedProcedure {α : Type} (handler : User → Session → α) (ctx : Ctx) :
    Except TRPCErrorCode α := do
  let (u, s) ← isAuthedMiddleware ctx
  .ok (handler u s)

/-- authedAdminProcedure: the perf middleware then isAdminMiddleware then
the handler body. -/
def authedAdminProcedure {α : Type} (handler : User → Session → α)
    (ctx : Ctx) : Except TRPCErrorCode α := do
  let (u, s) ← isAdminMiddleware ctx
  .ok (handler u s)

/-- A membership row of the database. -/
structure Membership where
  userId : Nat
  teamId : Int
  deriving Repr, DecidableEq

/-- prisma.membership.findFirst with where \x7buserId, teamId\x7d; per Prisma
semantics an undefined teamId leaves that filter out. -/
def membershipFindFirst (db : List Membership) (userId : Nat)
    (teamId : Option Int) : Option Membership :=
  db.find? (fun m => m.userId == userId &&
    (match teamId with
     | none => true
     | some tid => m.teamId == tid))

/-- JS Number(s) on a string, restricted to integral results: a trimmed
empty string is 0, an optionally signed decimal numeral is its value, and
anything else is NaN (none). Fractional, hexadecimal and exponent forms
are outside the model; no claim involves them. -/
def jsStringToNumber (s : String) : Option Int :=
  let t := s.trim
  if t == "" then some 0
  else if t.startsWith "-" then
    ((t.drop 1).toNat?).map (fun n => -(n : Int))
  else if t.startsWith "+" then
    ((t.drop 1).toNat?).map (fun n => (n : Int))
  else
    (t.toNat?).map (fun n => (n : Int))

/-- JS Number(v) as invoked by z.coerce.number(); none is NaN. Coercion of
composites goes through string conversion; only the empty array (which
coerces to 0) is modelled, other composites are NaN here, and no claim
involves them. -/
def jsToNumber : JSValue → Option Int
  | .undefined => none
  | .null => some 0
  | .bool b => some (if b then 1 else 0)
  | .num n => some n
  | .str s => jsStringToNumber s
  | .arr [] => some 0
  | .arr _ => none
  | .obj _ => none

/-- UserBelongsToTeamInput.safeParse, with the schema
z.object of a single member teamId : z.coerce.number().optional().
It fails (none) on a non-object input and when a present, defined teamId
member does not coerce to a number; otherwise it yields the optional
coerced teamId. -/
def parseUserBelongsToTeamInput : JSValue → Option (Option Int)
  | .obj props =>
    (match props.lookup "teamId" with
     | none => some none
     | some .undefined => some none
     | some v =>
       match jsToNumber v with
       | some n => some (some n)
       | none => none)
  | _ => none

/-- userBelongsToTeamMiddleware: parses the raw input, throws UNAUTHORIZED
when user or session is missing, throws BAD_REQUEST when the parse failed,
throws UNAUTHORIZED when no membership row links the user to the parsed
teamId, and otherwise calls next() with the context unchanged. -/
def userBelongsToTeamMiddleware (db : List Membership) (ctx : Ctx)
    (rawInput : JSValue) : Except TRPCErrorCode Unit :=
  let parse := parseUserBelongsToTeamInput rawInput
  match ctx.user, ctx.session with
  | some u, some _ =>
    (match parse with
     | none => .error .BAD_REQUEST
     | some teamId =>
       match membershipFindFirst db u.id teamId with
       | none => .error .UNAUTHORIZED
       | some _ => .ok ())
  | _, _ => .error .UNAUTHORIZED

/-- userBelongsToTeamProcedure: perf, then isAuthedMiddleware (narrowing
the context to the resolved user and session), then the team-membership
middleware (which passes the context through unchanged), then the handler
on that context. -/
def userBelongsToTeamProcedure {α : Type} (db : List Membership)
    (handler : Ctx → α) (ctx : Ctx) (rawInput : JSValue) :
    Except TRPCErrorCode α := do
  let (u, s) ← isAuthedMiddleware ctx
  let narrowed : Ctx := { user := some u, session := some s }
  let _ ← userBelongsToTeamMiddleware db narrowed rawInput
  .ok (handler narrowed)

/-! ## Claims about the component dispatcher -/

/-- A successful result is ok. -/
@[simp]
theorem except_isOk_ok {ε α : Type} (a : α) :
    (Except.ok a : Except ε α).isOk = true := rfl

/-- A thrown error is not ok. -/
@[simp]
theorem except_isOk_error {ε α : Type} (e : ε) :
    (Except.error e : Except ε α).isOk = false := rfl

/-- Binding after a throw keeps the throw. -/
@[simp]
theorem except_bind_error {ε α β : Type} (e : ε) (f : α → Except ε β) :
    ((Except.error e : Except ε α) >>= f) = .error e := rfl

/-- Binding after a success applies the continuation. -/
@[simp]
theorem except_bind_ok {ε α β : Type} (a : α) (f : α → Except ε β) :
    ((Except.ok a : Except ε α) >>= f) = f a := rfl

/-- Claim C1 counterexample: a select field whose options list is present
but empty is not rejected by the dispatcher; the select component is
rendered with an empty options list, because the source guard
!field.options only fires on an absent list (an empty array is truthy). -/
theorem select_empty_options_renders :
    (ComponentForField
      { name := "location", type := "select", options := some [] }
      JSValue.undefined).isOk = true := by
  decide

/-- Claim C1 (amended): for every field of type select or multiselect, the
dispatcher fails fatally when the options list is absent; when the options
list is present but empty it does not reject (with an absent value it
renders the component with an empty options list). -/
theorem select_multiselect_options_requirement (field : FieldSchema)
    (value : JSValue)
    (htype : field.type = "select" ∨ field.type = "multiselect") :
    (field.options = none → (ComponentForField field value).isOk = false) ∧
    (field.options = some [] → value.isUndefined = true →
      (ComponentForField field value).isOk = true) := by
  rcases htype with h | h <;>
    refine ⟨fun hopt => ?_, fun hopt hval => ?_⟩ <;>
      cases hu : value.isUndefined <;>
        simp_all [ComponentForField, componentsPropsType, isValueOfPropsType,
          dispatchOnPropsType] <;>
          cases value <;>
            simp_all [JSValue.isString, JSValue.isStringArray,
              JSValue.isUndefined] <;>
              split <;> simp

/-- Claim C1 witness: a select field with an absent options list is
rejected. -/
theorem select_absent_options_fatal :
    (ComponentForField { name := "location", type := "select" }
      JSValue.undefined).isOk = false :=
  (select_multiselect_options_requirement
    { name := "location", type := "select" } JSValue.undefined
    (Or.inl rfl)).1 rfl

/-- Claim C2: a supplied value failing the shape predicate of the resolved
propsType makes the dispatcher throw the fatal error naming the field and
the propsType; an absent (undefined) value is never the subject of that
error; the shape predicate throws on an unrecognised propsType; and in
particular a text field accepts the string "hello" and fatally rejects the
number 42. -/
theorem dispatcher_value_shape_check (field : FieldSchema) (value : JSValue)
    (propsType : String)
    (hpt : componentsPropsType field.type = some propsType) :
    (value.isUndefined = false →
      isValueOfPropsType value value propsType = .ok false →
      ComponentForField field value = .error (.invalidValue field.name propsType)) ∧
    (value.isUndefined = true →
      ∀ n pt, ComponentForField field value ≠ .error (.invalidValue n pt)) ∧
    (∀ pt, pt ≠ "text" → pt ≠ "boolean" → pt ≠ "textList" → pt ≠ "select" →
      pt ≠ "multiselect" → pt ≠ "objectiveWithInput" →
      ∀ v w, isValueOfPropsType v w pt = .error (.unknownPropsType pt)) ∧
    ComponentForField { name := "title", type := "text" } (JSValue.str "hello")
      = .ok (.component "text" (JSValue.str "hello") []) ∧
    ComponentForField { name := "title", type := "text" } (JSValue.num 42)
      = .error (.invalidValue "title" "text") := by
  refine ⟨fun hval hmis => ?_, fun hval n pt => ?_, fun pt h1 h2 h3 h4 h5 h6 v w => ?_,
    rfl, rfl⟩
  · simp [ComponentForField, hpt, hval, hmis]
  · simp only [ComponentForField, hpt, hval, Bool.not_true, if_neg]
    simp only [Bool.false_eq_true, if_false]
    unfold dispatchOnPropsType
    split_ifs <;> cases field.options <;> cases field.optionsInputs <;>
      (try simp) <;> (try (split <;> simp))
  · simp [isValueOfPropsType, h1, h2, h3, h4, h5, h6]

/-- Claim C2 witness: the theorem applied to a text field and the supplied
number 42, which fails the string-shape predicate. -/
theorem dispatcher_value_shape_check_witness :
    ComponentForField { name := "title", type := "text" } (JSValue.num 42)
      = .error (.invalidValue "title" "text") :=
  (dispatcher_value_shape_check { name := "title", type := "text" }
    (JSValue.num 42) "text" rfl).1 rfl rfl

/-- Claim C3: for a field resolving to the objectiveWithInput contract
with both options and optionsInputs defined, an empty options list makes
the dispatcher render nothing (the deliberate null render, not an error),
while an absent options or optionsInputs makes it fail fatally. -/
theorem objectiveWithInput_empty_options_renders_nothing
    (field : FieldSchema) (value : JSValue)
    (htype : componentsPropsType field.type = some "objectiveWithInput")
    (hvalue : value.isUndefined = true ∨
      isValueOfPropsType value value "objectiveWithInput" = .ok true) :
    (∀ inputs, field.options = some [] → field.optionsInputs = some inputs →
      ComponentForField field value = .ok .empty) ∧
    (field.options = none → (ComponentForField field value).isOk = false) ∧
    (field.optionsInputs = none → (ComponentForField field value).isOk = false) := by
  have hdisp : ComponentForField field value =
      dispatchOnPropsType field value "objectiveWithInput" := by
    rcases hvalue with hv | hv
    · simp [ComponentForField, htype, hv]
    · cases hu : value.isUndefined <;>
        simp [ComponentForField, htype, hu, hv]
  refine ⟨fun inputs hopt hinp => ?_, fun hopt => ?_, fun hinp => ?_⟩
  · simp [hdisp, dispatchOnPropsType, hopt, hinp]
  · simp [hdisp, dispatchOnPropsType, hopt]
  · rw [hdisp]
    unfold dispatchOnPropsType
    cases field.options <;> simp [hinp]

/-- Claim C3 witness: the theorem applied to a radioInput field with an
empty options list and a defined optionsInputs mapping, and to the same
field with each of the two properties absent. -/
theorem objectiveWithInput_empty_options_witness :
    ComponentForField
      { name := "location", type := "radioInput", options := some [],
        optionsInputs := some [] } JSValue.undefined = .ok .empty ∧
    (ComponentForField
      { name := "location", type := "radioInput",
        optionsInputs := some [] } JSValue.undefined).isOk = false ∧
    (ComponentForField
      { name := "location", type := "radioInput", options := some [] }
      JSValue.undefined).isOk = false :=
  ⟨(objectiveWithInput_empty_options_renders_nothing
      { name := "location", type := "radioInput", options := some [],
        optionsInputs := some [] } JSValue.undefined rfl (Or.inl rfl)).1 [] rfl rfl,
   (objectiveWithInput_empty_options_renders_nothing
      { name := "location", type := "radioInput",
        optionsInputs := some [] } JSValue.undefined rfl (Or.inl rfl)).2.1 rfl,
   (objectiveWithInput_empty_options_renders_nothing
      { name := "location", type := "radioInput", options := some [] }
      JSValue.undefined rfl (Or.inl rfl)).2.2 rfl⟩

/-- Claim C10: the objectiveWithInput branch of the shape predicate tests
the captured outer value, not its val parameter, and accepts exactly the
non-null object-typed values that contain a key named value, with no
constraint on the member shapes; in particular the object with a numeric
value member and no optionValue member is accepted and rendered. -/
theorem objectiveWithInput_shape_is_shallow (value val val2 : JSValue) :
    isValueOfPropsType value val "objectiveWithInput" =
      .ok (value.isObjectTypeof && !value.isNull && value.hasKey "value") ∧
    isValueOfPropsType value val "objectiveWithInput" =
      isValueOfPropsType value val2 "objectiveWithInput" ∧
    ComponentForField
      { name := "location", type := "radioInput",
        options := some [{ label := "A", value := "a" }],
        optionsInputs := some [] }
      (JSValue.obj [("value", JSValue.num 42)])
      = .ok (.component "objectiveWithInput"
          (JSValue.obj [("value", JSValue.num 42)])
          [{ label := "A", value := "a" }]) := by
  refine ⟨?_, by simp [isValueOfPropsType], rfl⟩
  cases value <;>
    simp [isValueOfPropsType, JSValue.isObjectTypeof, JSValue.isNull,
      JSValue.hasKey]

/-! ## Claims about the schema collection editor -/

/-- Claim C4: submitting the authoring dialog in create mode appends
exactly one entry, equal to the draft stamped with the single user source
record and with editable defaulted to user when the draft left it unset,
leaving every existing entry in place; in edit mode it replaces the entry
at the bound index wholesale with the draft and changes no other entry;
the dialog closes in both cases. -/
theorem submitDialog_create_append_edit_replace (fields : List FieldSchema)
    (dialog : FieldDialogState) (data : FieldSchema) :
    (dialog.fieldIndex = -1 →
      (submitDialog fields dialog data).1 =
        fields ++ [{ data with
          sources := some [{ label := "User", type := "user", id := "user",
                             fieldRequired := data.required }],
          editable := some (jsStringOr data.editable "user") }]) ∧
    (∀ i : Nat, dialog.fieldIndex = (i : Int) → i < fields.length →
      (submitDialog fields dialog data).1[i]? = some data ∧
      ∀ j : Nat, j ≠ i → (submitDialog fields dialog data).1[j]? = fields[j]?) ∧
    (submitDialog fields dialog data).2 = { isOpen := false, fieldIndex := -1 } := by
  refine ⟨fun hidx => ?_, fun i hidx hlen => ⟨?_, fun j hj => ?_⟩, rfl⟩
  · simp [submitDialog, hidx]
  · have hne : (dialog.fieldIndex != -1) = true := by
      simp [hidx]
    simp [submitDialog, hne, hidx, List.getElem?_set_eq_of_lt _ hlen]
  · have hne : (dialog.fieldIndex != -1) = true := by
      simp [hidx]
    simp [submitDialog, hne, hidx, List.getElem?_set_ne (Ne.symm hj)]

/-- Claim C4 witness: create mode appends the stamped draft to a
one-entry collection, and edit mode at index 0 replaces the single entry;
the dialog state is closed afterwards. -/
theorem submitDialog_witness :
    (submitDialog [{ name := "email", type := "email" }]
      { isOpen := true, fieldIndex := -1 }
      { name := "note", type := "text", required := some true }).1 =
      [{ name := "email", type := "email" },
       { name := "note", type := "text", required := some true,
         editable := some "user",
         sources := some [{ label := "User", type := "user", id := "user",
                            fieldRequired := some true }] }] ∧
    (submitDialog [{ name := "email", type := "email" }]
      { isOpen := true, fieldIndex := 0 }
      { name := "note", type := "text" }).1[0]? =
      some { name := "note", type := "text" } ∧
    (submitDialog [{ name := "email", type := "email" }]
      { isOpen := true, fieldIndex := 0 }
      { name := "note", type := "text" }).2 =
      { isOpen := false, fieldIndex := -1 } :=
  ⟨(submitDialog_create_append_edit_replace
      [{ name := "email", type := "email" }]
      { isOpen := true, fieldIndex := -1 }
      { name := "note", type := "text", required := some true }).1 rfl,
   ((submitDialog_create_append_edit_replace
      [{ name := "email", type := "email" }]
      { isOpen := true, fieldIndex := 0 }
      { name := "note", type := "text" }).2.1 0 rfl (by decide)).1,
   (submitDialog_create_append_edit_replace
      [{ name := "email", type := "email" }]
      { isOpen := true, fieldIndex := 0 }
      { name := "note", type := "text" }).2.2⟩

/-! ## Claims about the request guard chain -/

/-- Claim C5: a request whose context lacks a resolved user or session is
rejected UNAUTHORIZED by every procedure composed with the authentication
stage, for every handler (so neither a later stage nor the handler body
contributes to the result); an authenticated non-ADMIN user is rejected
UNAUTHORIZED by the admin procedure for every handler; an ADMIN user
passes through to the handler. -/
theorem auth_and_admin_guard {α : Type} (handler : User → Session → α)
    (ctx : Ctx) :
    ((ctx.user = none ∨ ctx.session = none) →
      authedProcedure handler ctx = .error .UNAUTHORIZED ∧
      authedAdminProcedure handler ctx = .error .UNAUTHORIZED) ∧
    (∀ u s, ctx.user = some u → ctx.session = some s →
      authedProcedure handler ctx = .ok (handler u s) ∧
      (u.role ≠ "ADMIN" →
        authedAdminProcedure handler ctx = .error .UNAUTHORIZED) ∧
      (u.role = "ADMIN" →
        authedAdminProcedure handler ctx = .ok (handler u s))) := by
  constructor
  · rintro (h | h) <;>
      exact ⟨by simp [authedProcedure, isAuthedMiddleware, h],
        by simp [authedAdminProcedure, isAdminMiddleware, isAuthedMiddleware, h]⟩
  · intro u s hu hs
    refine ⟨?_, ?_, ?_⟩
    · simp [authedProcedure, isAuthedMiddleware, hu, hs]
    · intro hrole
      simp [authedAdminProcedure, isAdminMiddleware, isAuthedMiddleware,
        hu, hs, hrole]
    · intro hrole
      simp [authedAdminProcedure, isAdminMiddleware, isAuthedMiddleware,
        hu, hs, hrole]

/-- Claim C5 witness: the theorem applied to a counting handler, a context
with no session, a context with a MEMBER user, and a context with an ADMIN
user. -/
theorem auth_and_admin_guard_witness :
    authedProcedure (fun u _ => u.id) { user := some { id := 3, role := "MEMBER" }, session := none }
      = .error .UNAUTHORIZED ∧
    authedAdminProcedure (fun u _ => u.id)
      { user := some { id := 3, role := "MEMBER" }, session := some { id := 9 } }
      = .error .UNAUTHORIZED ∧
    authedAdminProcedure (fun u _ => u.id)
      { user := some { id := 3, role := "ADMIN" }, session := some { id := 9 } }
      = .ok 3 :=
  ⟨((auth_and_admin_guard (fun u _ => u.id)
      { user := some { id := 3, role := "MEMBER" }, session := none }).1
      (Or.inr rfl)).1,
   (((auth_and_admin_guard (fun u _ => u.id)
      { user := some { id := 3, role := "MEMBER" }, session := some { id := 9 } }).2
      { id := 3, role := "MEMBER" } { id := 9 } rfl rfl).2.1 (by decide)),
   (((auth_and_admin_guard (fun u _ => u.id)
      { user := some { id := 3, role := "ADMIN" }, session := some { id := 9 } }).2
      { id := 3, role := "ADMIN" } { id := 9 } rfl rfl).2.2 rfl)⟩

/-- Claim C6: for an authenticated request to the team-scoped procedure,
a raw input failing schema validation is rejected BAD_REQUEST; a parsed
input with no membership row linking the user to the parsed teamId is
rejected UNAUTHORIZED; and with a membership row present the handler runs
on the context narrowed by the authentication stage and otherwise
unchanged. -/
theorem team_membership_guard {α : Type} (db : List Membership)
    (handler : Ctx → α) (ctx : Ctx) (u : User) (s : Session)
    (rawInput : JSValue) (hu : ctx.user = some u) (hs : ctx.session = some s) :
    (parseUserBelongsToTeamInput rawInput = none →
      userBelongsToTeamProcedure db handler ctx rawInput = .error .BAD_REQUEST) ∧
    (∀ tid, parseUserBelongsToTeamInput rawInput = some tid →
      (membershipFindFirst db u.id tid = none →
        userBelongsToTeamProcedure db handler ctx rawInput
          = .error .UNAUTHORIZED) ∧
      (∀ m, membershipFindFirst db u.id tid = some m →
        userBelongsToTeamProcedure db handler ctx rawInput
          = .ok (handler { user := some u, session := some s }))) := by
  refine ⟨fun hparse => ?_, fun tid hparse => ⟨fun hmem => ?_, fun m hmem => ?_⟩⟩
  · simp [userBelongsToTeamProcedure, isAuthedMiddleware,
      userBelongsToTeamMiddleware, hu, hs, hparse]
  · simp [userBelongsToTeamProcedure, isAuthedMiddleware,
      userBelongsToTeamMiddleware, hu, hs, hparse, hmem]
  · simp [userBelongsToTeamProcedure, isAuthedMiddleware,
      userBelongsToTeamMiddleware, hu, hs, hparse, hmem]

/-- Claim C6 witness: the theorem applied to user 1 with a membership
database containing only the row linking user 1 to team 5: a teamId that
is an object (not coercible to a number) is BAD_REQUEST, teamId 6 is
UNAUTHORIZED, and teamId 5 reaches the handler with the authenticated
context. -/
theorem team_membership_guard_witness :
    userBelongsToTeamProcedure [{ userId := 1, teamId := 5 }]
      (fun c => c.user) { user := some { id := 1, role := "MEMBER" }, session := some { id := 2 } }
      (JSValue.obj [("teamId", JSValue.obj [])]) = .error .BAD_REQUEST ∧
    userBelongsToTeamProcedure [{ userId := 1, teamId := 5 }]
      (fun c => c.user) { user := some { id := 1, role := "MEMBER" }, session := some { id := 2 } }
      (JSValue.obj [("teamId", JSValue.num 6)]) = .error .UNAUTHORIZED ∧
    userBelongsToTeamProcedure [{ userId := 1, teamId := 5 }]
      (fun c => c.user) { user := some { id := 1, role := "MEMBER" }, session := some { id := 2 } }
      (JSValue.obj [("teamId", JSValue.num 5)])
      = .ok (some { id := 1, role := "MEMBER" }) :=
  ⟨(team_membership_guard [{ userId := 1, teamId := 5 }] (fun c => c.user)
      { user := some { id := 1, role := "MEMBER" }, session := some { id := 2 } }
      { id := 1, role := "MEMBER" } { id := 2 }
      (JSValue.obj [("teamId", JSValue.obj [])]) rfl rfl).1 rfl,
   ((team_membership_guard [{ userId := 1, teamId := 5 }] (fun c => c.user)
      { user := some { id := 1, role := "MEMBER" }, session := some { id := 2 } }
      { id := 1, role := "MEMBER" } { id := 2 }
      (JSValue.obj [("teamId", JSValue.num 6)]) rfl rfl).2 (some 6) rfl).1 rfl,
   ((team_membership_guard [{ userId := 1, teamId := 5 }] (fun c => c.user)
      { user := some { id := 1, role := "MEMBER" }, session := some { id := 2 } }
      { id := 1, role := "MEMBER" } { id := 2 }
      (JSValue.obj [("teamId", JSValue.num 5)]) rfl rfl).2 (some 5) rfl).2
      { userId := 1, teamId := 5 } rfl⟩

/-! ## Claims about the system-field protection policy and reordering -/

/-- Claim C7: for an entry with editable system, the delete button and the
inline hidden switch are not rendered and the dialog kind selector and
name input are disabled; the delete button is also not rendered for
system-but-optional. -/
theorem system_field_controls_locked (field : FieldSchema)
    (h : field.editable = some "system") :
    removeButtonShown field = false ∧
    hiddenToggleShown field = false ∧
    typeSelectDisabled field.editable = true ∧
    nameInputDisabled field.editable = true ∧
    (∀ g : FieldSchema, g.editable = some "system-but-optional" →
      removeButtonShown g = false) := by
  refine ⟨?_, ?_, ?_, ?_, fun g hg => ?_⟩ <;>
    simp [removeButtonShown, hiddenToggleShown, fieldActionsShown,
      typeSelectDisabled, nameInputDisabled, h, *]

/-- Claim C7 witness: the theorem applied to a system email field and a
system-but-optional location field. -/
theorem system_field_controls_locked_witness :
    removeButtonShown { name := "email", type := "email", editable := some "system" } = false ∧
    hiddenToggleShown { name := "email", type := "email", editable := some "system" } = false ∧
    typeSelectDisabled (some "system") = true ∧
    nameInputDisabled (some "system") = true ∧
    removeButtonShown
      { name := "location", type := "radioInput",
        editable := some "system-but-optional" } = false := by
  have h := system_field_controls_locked
    { name := "email", type := "email", editable := some "system" } rfl
  exact ⟨h.1, h.2.1, h.2.2.1, h.2.2.2.1, h.2.2.2.2
    { name := "location", type := "radioInput",
      editable := some "system-but-optional" } rfl⟩

/-- Claim C8: for an index whose entry is not a system field, the inline
hidden toggle replaces that entry by the same record with only hidden
flipped (negation of its truthy state), leaves every other index
unchanged, and preserves the length of the collection. -/
theorem toggleHidden_flips_only_hidden (fields : List FieldSchema)
    (index : Nat) (f : FieldSchema) (hf : fields[index]? = some f)
    (he : f.editable ≠ some "system") :
    toggleHidden fields index =
      fields.set index { f with hidden := some (!(f.hidden.getD false)) } ∧
    (toggleHidden fields index)[index]? =
      some { f with hidden := some (!(f.hidden.getD false)) } ∧
    (∀ j : Nat, j ≠ index → (toggleHidden fields index)[j]? = fields[j]?) ∧
    (toggleHidden fields index).length = fields.length := by
  have hlen : index < fields.length := by
    rcases List.getElem?_eq_some_iff.mp hf with ⟨hlt, _⟩
    exact hlt
  have hset : toggleHidden fields index =
      fields.set index { f with hidden := some (!(f.hidden.getD false)) } := by
    simp [toggleHidden, onHiddenSwitchChange, hf]
  refine ⟨hset, ?_, fun j hj => ?_, ?_⟩
  · rw [hset, List.getElem?_set_eq_of_lt _ hlen]
  · rw [hset, List.getElem?_set_ne (Ne.symm hj)]
  · rw [hset, List.length_set]

/-- Claim C8 witness: toggling the hidden flag of the second entry of a
two-entry collection flips only that flag. -/
theorem toggleHidden_witness :
    toggleHidden
      [{ name := "email", type := "email", editable := some "system" },
       { name := "note", type := "text", editable := some "user",
         required := some true }] 1 =
      [{ name := "email", type := "email", editable := some "system" },
       { name := "note", type := "text", editable := some "user",
         required := some true, hidden := some true }] :=
  (toggleHidden_flips_only_hidden
    [{ name := "email", type := "email", editable := some "system" },
     { name := "note", type := "text", editable := some "user",
       required := some true }] 1
    { name := "note", type := "text", editable := some "user",
      required := some true } rfl (by simp)).1

/-- Claim C9: swapping two adjacent in-range entries twice restores the
collection (the up and down reordering arrows are inverses). -/
theorem swap_adjacent_involution (fields : List FieldSchema) (i : Nat)
    (h : i + 1 < fields.length) :
    swapFields (swapFields fields i (i + 1)) i (i + 1) = fields := by
  have hi : i < fields.length := Nat.lt_of_succ_lt h
  have hgi : fields[i]? = some fields[i] := List.getElem?_eq_getElem hi
  have hgj : fields[i + 1]? = some fields[i + 1] := List.getElem?_eq_getElem h
  have h1 : swapFields fields i (i + 1) =
      (fields.set i fields[i + 1]).set (i + 1) fields[i] := by
    simp [swapFields, hgi, hgj]
  have hne : i ≠ i + 1 := by omega
  have hlen1 : i < ((fields.set i fields[i + 1]).set (i + 1) fields[i]).length := by
    simpa using hi
  have hlen2 : i + 1 < ((fields.set i fields[i + 1]).set (i + 1) fields[i]).length := by
    simpa using h
  have hgi' : ((fields.set i fields[i + 1]).set (i + 1) fields[i])[i]? =
      some fields[i + 1] := by
    rw [List.getElem?_set_ne hne.symm, List.getElem?_set_eq_of_lt _ hi]
  have hgj' : ((fields.set i fields[i + 1]).set (i + 1) fields[i])[i + 1]? =
      some fields[i] := by
    rw [List.getElem?_set_eq_of_lt]
    simpa using h
  rw [h1]
  simp only [swapFields, hgi', hgj']
  apply List.ext_getElem?
  intro n
  by_cases hn1 : n = i
  · subst hn1
    rw [List.getElem?_set_ne hne.symm, List.getElem?_set_eq_of_lt]
    · exact hgi.symm
    · simpa using hi
  · by_cases hn2 : n = i + 1
    · subst hn2
      rw [List.getElem?_set_eq_of_lt]
      · exact hgj.symm
      · simpa using h
    · rw [List.getElem?_set_ne (fun hh => hn2 hh.symm),
        List.getElem?_set_ne (fun hh => hn1 hh.symm),
        List.getElem?_set_ne (fun hh => hn2 hh.symm),
        List.getElem?_set_ne (fun hh => hn1 hh.symm)]

/-- Claim C9 witness: the double adjacent swap applied at indices 0 and 1
of a three-entry collection. -/
theorem swap_adjacent_involution_witness :
    swapFields (swapFields
      [{ name := "a", type := "text" }, { name := "b", type := "text" },
       { name := "c", type := "text" }] 0 1) 0 1 =
      [{ name := "a", type := "text" }, { name := "b", type := "text" },
       { name := "c", type := "text" }] :=
  swap_adjacent_involution
    [{ name := "a", type := "text" }, { name := "b", type := "text" },
     { name := "c", type := "text" }] 0 (by decide)

end CalCom
